import Mathlib

/-
Shallow embedding of src/iscsi_logger.c (spofa/tcpproxy).

The C file is a Linux kernel module holding a single global logger state:
a staging file (log_file), a page currently fetched from its page cache
(log_page), a page index inside the file (poffset), a byte cursor inside
the page (offset), a mapped-address pointer (paddr) and a generation
counter used to name files.  The embedding turns each static variable
into a field of LoggerState, models pointers by "is the pointer non-NULL"
flags or Option values, and adds ghost history fields (attempts, flushed,
records) recording the externally visible effects: file-open attempts,
pages handed to pagecache_write_end, and record slots handed out by
iscsi_logger_alloc.  Environment decisions of the kernel (does filp_open
succeed, does pagecache_write_begin succeed, does pagecache_write_end
succeed) are inputs of type Env.  A BUG_ON firing is modelled by the
operation returning Except.error ().
-/

namespace IscsiLogger

/-- Page size of the target platform: 4 KiB pages (PAGE_SHIFT = 12). -/
def PAGE_SIZE : Nat := 4096

/-- MSG_RND_UP from iscsi_logger.c: `((s)+0x3) & ~0x3` on a 64-bit size_t.
On the value reduced modulo 2^64 the mask clears the two low bits, which
is the same as rounding (s+3) down to a multiple of 4. -/
def MSG_RND_UP (s : Nat) : Nat := (s + 3) % 2 ^ 64 / 4 * 4

/-- Modelled from the spec: the record header layout (struct iscsi_log_msg
from the out-of-tree header netlink_iscsi_logger.h, which is not under
src/) carries the encoded size and a 1-byte type tag; the spec gives a
4-byte-aligned size field plus the 1-byte tag, hence 5 header bytes. -/
def HDR_SIZE : Nat := 5

/-- Environment decisions outside the logger's control during one
operation: whether filp_open succeeds, whether pagecache_write_begin
succeeds, and whether pagecache_write_end reports success. -/
structure Env where
  openOk : Bool
  beginOk : Bool
  flushOk : Bool
  deriving Repr, DecidableEq

/-- Ghost history entry for one file-creation attempt in fetch_log_file:
the generation counter value consumed by the attempt, the 3-digit value
printed into the file name, and whether filp_open succeeded. -/
structure Attempt where
  gen : Nat
  name : Nat
  ok : Bool
  deriving Repr, DecidableEq

/-- Ghost history entry for one page handed to pagecache_write_end by
put_log_page: the file (identified by the generation number consumed when
it was created), the page index (poffset), the byte cursor (offset) at
seal time, the offset of the terminator sentinel when one was written,
and whether write_end succeeded. -/
structure Flush where
  file : Nat
  page : Nat
  cursor : Nat
  term : Option Nat
  ok : Bool
  deriving Repr, DecidableEq

/-- Ghost history entry for one record slot returned by
iscsi_logger_alloc: the file and page the slot lives in, its byte offset
inside the page, its rounded size, and the type tag stored in its
header. -/
structure LogRec where
  file : Nat
  page : Nat
  off : Nat
  size : Nat
  type : Nat
  deriving Repr, DecidableEq

/-- The global mutable state of iscsi_logger.c.  log_file is the
generation number of the currently open file (none = NULL); logPage,
paddr and fsdata model the corresponding pointers being non-NULL; locked
models holding iscsi_logger_mtx; flushed, records and attempts are ghost
histories. -/
structure LoggerState where
  maxFileSize : Nat
  generation : Nat
  logFile : Option Nat
  poffset : Nat
  offset : Nat
  logPage : Bool
  paddr : Bool
  fsdata : Bool
  locked : Bool
  flushed : List Flush
  records : List LogRec
  attempts : List Attempt
  deriving Repr, DecidableEq

/-- Initial state: max_file_size is whatever the control surface
configured (1024 pages after module init); all pointers NULL, all
counters zero. -/
def initState (max : Nat) : LoggerState :=
  { maxFileSize := max
    generation := 0
    logFile := none
    poffset := 0
    offset := 0
    logPage := false
    paddr := false
    fsdata := false
    locked := false
    flushed := []
    records := []
    attempts := [] }

/-- put_log_page from iscsi_logger.c: if no page is fetched, do nothing;
otherwise write the terminator sentinel at offset when offset < PAGE_SIZE
(kmap_atomic sets paddr for that), hand the page to pagecache_write_end
(a failure is only printed), and clear log_page and fsdata. -/
def put_log_page (env : Env) (s : LoggerState) : LoggerState :=
  if s.logPage = false then s
  else
    let s1 := if s.offset < PAGE_SIZE then { s with paddr := true } else s
    { s1 with
      flushed := s1.flushed ++
        [Flush.mk (s1.logFile.getD 0) s1.poffset s1.offset
          (if s1.offset < PAGE_SIZE then some s1.offset else none)
          env.flushOk]
      logPage := false
      fsdata := false }

/-- iscsi_logger_roll from iscsi_logger.c: if a file is open, put the
current page, close the file and reset poffset and offset to 0. -/
def iscsi_logger_roll (env : Env) (s : LoggerState) : LoggerState :=
  if s.logFile.isSome then
    let s1 := put_log_page env s
    { s1 with poffset := 0, offset := 0, logFile := none }
  else s

/-- fetch_log_file from iscsi_logger.c: keep the current file while
poffset < max_file_size, rolling over when the limit is reached; then
build a name from the post-incremented generation counter modulo 1000 and
filp_open it, leaving log_file NULL on failure. -/
def fetch_log_file (env : Env) (s : LoggerState) : LoggerState :=
  if s.logFile.isSome = true ∧ s.poffset < s.maxFileSize then s
  else
    let s1 := if s.logFile.isSome then iscsi_logger_roll env s else s
    let g := s1.generation
    let s2 := { s1 with
      generation := g + 1
      attempts := s1.attempts ++ [Attempt.mk g (g % 1000) env.openOk] }
    if env.openOk then { s2 with logFile := some g }
    else { s2 with logFile := none }

/-- fetch_log_page from iscsi_logger.c: keep the current page when the
record fits; otherwise put the page, reset offset, advance poffset, fetch
the current file, and when one is open run pagecache_write_begin (its
failure leaves log_page NULL and is only printed). -/
def fetch_log_page (env : Env) (size : Nat) (s : LoggerState) : LoggerState :=
  if s.logPage = true ∧ s.offset + size ≤ PAGE_SIZE then s
  else
    let s1 :=
      if s.logPage = true then
        let t := put_log_page env s
        { t with offset := 0, poffset := t.poffset + 1 }
      else s
    let s2 := fetch_log_file env s1
    if s2.logFile.isSome then
      if env.beginOk then { s2 with logPage := true, fsdata := true }
      else s2
    else s2

/-- iscsi_logger_alloc from iscsi_logger.c: round the size up,
BUG_ON(size > PAGE_SIZE) (modelled as Except.error ()), fetch a page,
return NULL when none could be fetched, otherwise kmap the page (paddr),
carve the slot at the cursor, advance the cursor and fill the header
(msg->size, msg->type; the C parameter is a uint8_t, hence mod 256). -/
def iscsi_logger_alloc (env : Env) (size type : Nat) (s : LoggerState) :
    Except Unit (Option LogRec × LoggerState) :=
  let sz := MSG_RND_UP size
  if PAGE_SIZE < sz then Except.error ()
  else
    let s1 := fetch_log_page env sz s
    if s1.logPage = false then Except.ok (none, s1)
    else
      let r : LogRec := ⟨s1.logFile.getD 0, s1.poffset, s1.offset, sz, type % 256⟩
      Except.ok (some r,
        { s1 with
          paddr := true
          offset := s1.offset + sz
          records := s1.records ++ [r] })

/-- iscsi_logger_commit from iscsi_logger.c: BUG_ON(!paddr) then
kunmap_atomic(paddr).  Unmapping does not change any of the modelled
variables; in particular the paddr variable itself is not cleared. -/
def iscsi_logger_commit (s : LoggerState) : Except Unit LoggerState :=
  if s.paddr = false then Except.error ()
  else Except.ok s

/-- iscsi_logger_start from iscsi_logger.c: take the mutex, then fetch
the current log file. -/
def iscsi_logger_start (env : Env) (s : LoggerState) : LoggerState :=
  fetch_log_file env { s with locked := true }

/-- iscsi_logger_stop from iscsi_logger.c: put the current page, then
release the mutex.  Neither offset nor poffset is reset and the file is
not closed. -/
def iscsi_logger_stop (env : Env) (s : LoggerState) : LoggerState :=
  { put_log_page env s with locked := false }

/-- One externally invokable operation of the logger together with the
environment decisions made while it runs. -/
inductive Op where
  | start (env : Env)
  | alloc (env : Env) (size type : Nat)
  | commit
  | roll (env : Env)
  | stop (env : Env)
  deriving Repr, DecidableEq

/-- Run one operation; Except.error () means a BUG_ON fired. -/
def runOp (s : LoggerState) : Op → Except Unit LoggerState
  | Op.start env => Except.ok (iscsi_logger_start env s)
  | Op.alloc env size type =>
      match iscsi_logger_alloc env size type s with
      | Except.ok p => Except.ok p.2
      | Except.error e => Except.error e
  | Op.commit => iscsi_logger_commit s
  | Op.roll env => Except.ok (iscsi_logger_roll env s)
  | Op.stop env => Except.ok (iscsi_logger_stop env s)

/-- Run a list of operations from a state. -/
def run (s : LoggerState) : List Op → Except Unit LoggerState
  | [] => Except.ok s
  | op :: ops =>
      match runOp s op with
      | Except.ok s' => run s' ops
      | Except.error e => Except.error e

/-- Environment in which every kernel service succeeds. -/
def okEnv : Env := ⟨true, true, true⟩

/-- Environment in which filp_open fails but everything else succeeds. -/
def noOpenEnv : Env := ⟨false, true, true⟩

/-- Environment in which pagecache_write_begin fails. -/
def noBeginEnv : Env := ⟨true, false, true⟩

/-- Environment in which pagecache_write_end fails. -/
def noFlushEnv : Env := ⟨true, true, false⟩

/-- Final state of a run from initState, when no BUG_ON fired. -/
def stateAfter (max : Nat) (ops : List Op) : Option LoggerState :=
  match run (initState max) ops with
  | Except.ok s => some s
  | Except.error _ => none

/-- Whether a run result is free of BUG_ON. -/
def isOk : Except Unit LoggerState → Bool
  | Except.ok _ => true
  | Except.error _ => false

/-- The record option returned by one iscsi_logger_alloc call, none when
a BUG_ON fired. -/
def allocRec (env : Env) (size type : Nat) (s : LoggerState) :
    Option (Option LogRec) :=
  match iscsi_logger_alloc env size type s with
  | Except.ok p => some p.1
  | Except.error _ => none

/-- Two record slots overlap when they live in the same file and page and
their byte intervals intersect. -/
def overlap (a b : LogRec) : Prop :=
  a.file = b.file ∧ a.page = b.page ∧ a.off < b.off + b.size ∧ b.off < a.off + a.size

instance (a b : LogRec) : Decidable (overlap a b) := by
  unfold overlap; infer_instance

/-- Normal form of put_log_page on a state with a fetched page. -/
theorem put_log_page_eq (env : Env) (s : LoggerState) (h : s.logPage = true) :
    put_log_page env s =
      { s with
        paddr := if s.offset < PAGE_SIZE then true else s.paddr
        flushed := s.flushed ++
          [Flush.mk (s.logFile.getD 0) s.poffset s.offset
            (if s.offset < PAGE_SIZE then some s.offset else none) env.flushOk]
        logPage := false
        fsdata := false } := by
  unfold put_log_page
  rw [if_neg (by simp [h])]
  by_cases hoff : s.offset < PAGE_SIZE <;> simp [hoff]

/-- put_log_page does nothing without a fetched page. -/
theorem put_log_page_noop (env : Env) (s : LoggerState) (h : s.logPage = false) :
    put_log_page env s = s := by
  unfold put_log_page
  rw [if_pos h]

/-- iscsi_logger_roll does nothing without an open file. -/
theorem roll_noop (env : Env) (s : LoggerState) (h : s.logFile = none) :
    iscsi_logger_roll env s = s := by
  unfold iscsi_logger_roll
  simp [h]

/-- Normal form of iscsi_logger_roll on a state with an open file. -/
theorem roll_eq (env : Env) (s : LoggerState) (g : Nat) (h : s.logFile = some g) :
    iscsi_logger_roll env s =
      { put_log_page env s with poffset := 0, offset := 0, logFile := none } := by
  unfold iscsi_logger_roll
  simp [h]

/-- fetch_log_file keeps the current file while poffset < max_file_size. -/
theorem fetch_log_file_keep (env : Env) (s : LoggerState) (g : Nat)
    (h1 : s.logFile = some g) (h2 : s.poffset < s.maxFileSize) :
    fetch_log_file env s = s := by
  unfold fetch_log_file
  rw [if_pos (by simp [h1, h2])]

/-- Normal form of fetch_log_file on a state with no open file: consume a
generation number and attempt the open. -/
theorem fetch_log_file_none (env : Env) (s : LoggerState) (h : s.logFile = none) :
    fetch_log_file env s =
      { s with
        generation := s.generation + 1
        attempts := s.attempts ++
          [Attempt.mk s.generation (s.generation % 1000) env.openOk]
        logFile := if env.openOk = true then some s.generation else none } := by
  unfold fetch_log_file
  rw [if_neg (by simp [h])]
  cases henv : env.openOk <;> simp [h, henv]

/-- fetch_log_file at the page-capacity limit first rolls the file over,
then proceeds as from a closed-file state. -/
theorem fetch_log_file_roll (env : Env) (s : LoggerState) (g : Nat)
    (h1 : s.logFile = some g) (h2 : ¬ s.poffset < s.maxFileSize) :
    fetch_log_file env s = fetch_log_file env (iscsi_logger_roll env s) := by
  have hr : (iscsi_logger_roll env s).logFile = none := by
    rw [roll_eq env s g h1]
  rw [fetch_log_file_none env _ hr]
  unfold fetch_log_file
  rw [if_neg (by simp [h2])]
  rw [roll_eq env s g h1]
  cases henv : env.openOk <;> simp [h1, henv]

/-- fetch_log_page keeps the current page when the record fits. -/
theorem fetch_log_page_fits (env : Env) (sz : Nat) (s : LoggerState)
    (h1 : s.logPage = true) (h2 : s.offset + sz ≤ PAGE_SIZE) :
    fetch_log_page env sz s = s := by
  unfold fetch_log_page
  rw [if_pos ⟨h1, h2⟩]

/-- Normal form of fetch_log_page when the current page (if any) cannot
take the record: seal it, advance, fetch a file, and try write_begin. -/
theorem fetch_log_page_new (env : Env) (sz : Nat) (s : LoggerState)
    (h : ¬ (s.logPage = true ∧ s.offset + sz ≤ PAGE_SIZE)) :
    fetch_log_page env sz s =
      (if (fetch_log_file env
            (if s.logPage = true then
              { put_log_page env s with offset := 0, poffset := (put_log_page env s).poffset + 1 }
             else s)).logFile.isSome = true ∧ env.beginOk = true then
        { fetch_log_file env
            (if s.logPage = true then
              { put_log_page env s with offset := 0, poffset := (put_log_page env s).poffset + 1 }
             else s) with logPage := true, fsdata := true }
       else
        fetch_log_file env
          (if s.logPage = true then
            { put_log_page env s with offset := 0, poffset := (put_log_page env s).poffset + 1 }
           else s)) := by
  unfold fetch_log_page
  rw [if_neg h]
  by_cases hlp : s.logPage = true
  · by_cases hso : (fetch_log_file env
        { put_log_page env s with offset := 0, poffset := (put_log_page env s).poffset + 1 }).logFile.isSome = true
    · cases henv : env.beginOk <;> simp [hlp, hso, henv]
    · simp [hlp, hso]
  · by_cases hso : (fetch_log_file env s).logFile.isSome = true
    · cases henv : env.beginOk <;> simp [hlp, hso, henv]
    · simp [hlp, hso]

@[simp] theorem put_maxFileSize (env : Env) (s : LoggerState) :
    (put_log_page env s).maxFileSize = s.maxFileSize := by
  by_cases h : s.logPage = true
  · rw [put_log_page_eq env s h]
  · rw [put_log_page_noop env s (by revert h; cases s.logPage <;> simp)]

@[simp] theorem put_generation (env : Env) (s : LoggerState) :
    (put_log_page env s).generation = s.generation := by
  by_cases h : s.logPage = true
  · rw [put_log_page_eq env s h]
  · rw [put_log_page_noop env s (by revert h; cases s.logPage <;> simp)]

@[simp] theorem put_logFile (env : Env) (s : LoggerState) :
    (put_log_page env s).logFile = s.logFile := by
  by_cases h : s.logPage = true
  · rw [put_log_page_eq env s h]
  · rw [put_log_page_noop env s (by revert h; cases s.logPage <;> simp)]

@[simp] theorem put_poffset (env : Env) (s : LoggerState) :
    (put_log_page env s).poffset = s.poffset := by
  by_cases h : s.logPage = true
  · rw [put_log_page_eq env s h]
  · rw [put_log_page_noop env s (by revert h; cases s.logPage <;> simp)]

@[simp] theorem put_offset (env : Env) (s : LoggerState) :
    (put_log_page env s).offset = s.offset := by
  by_cases h : s.logPage = true
  · rw [put_log_page_eq env s h]
  · rw [put_log_page_noop env s (by revert h; cases s.logPage <;> simp)]

@[simp] theorem put_logPage (env : Env) (s : LoggerState) :
    (put_log_page env s).logPage = false := by
  by_cases h : s.logPage = true
  · rw [put_log_page_eq env s h]
  · have h' : s.logPage = false := by revert h; cases s.logPage <;> simp
    rw [put_log_page_noop env s h']; exact h'

@[simp] theorem put_locked (env : Env) (s : LoggerState) :
    (put_log_page env s).locked = s.locked := by
  by_cases h : s.logPage = true
  · rw [put_log_page_eq env s h]
  · rw [put_log_page_noop env s (by revert h; cases s.logPage <;> simp)]

@[simp] theorem put_records (env : Env) (s : LoggerState) :
    (put_log_page env s).records = s.records := by
  by_cases h : s.logPage = true
  · rw [put_log_page_eq env s h]
  · rw [put_log_page_noop env s (by revert h; cases s.logPage <;> simp)]

@[simp] theorem put_attempts (env : Env) (s : LoggerState) :
    (put_log_page env s).attempts = s.attempts := by
  by_cases h : s.logPage = true
  · rw [put_log_page_eq env s h]
  · rw [put_log_page_noop env s (by revert h; cases s.logPage <;> simp)]

/-- The inductive invariant of reachable logger states, without the bound
on poffset (which breaks transiently inside fetch_log_page). -/
structure LoggerInv0 (s : LoggerState) : Prop where
  page_file : s.logPage = true → s.logFile.isSome = true
  file_gen : ∀ g : Nat, s.logFile = some g → g < s.generation
  rec_gen : ∀ r ∈ s.records, r.file < s.generation
  frontier : ∀ r ∈ s.records, ∀ g : Nat, s.logFile = some g → r.file = g →
    r.page < s.poffset ∨ (r.page = s.poffset ∧ r.off + r.size ≤ s.offset)
  gen_att : s.generation = s.attempts.length
  att_gen : s.attempts.map Attempt.gen = List.range s.attempts.length
  att_name : ∀ e ∈ s.attempts, e.name = e.gen % 1000
  flush_lt : ∀ e ∈ s.flushed, 1 ≤ s.maxFileSize → e.page < s.maxFileSize
  term_rule : ∀ e ∈ s.flushed,
    e.term = if e.cursor < PAGE_SIZE then some e.cursor else none

/-- Full invariant of reachable states: LoggerInv0 plus the bound on the
page index within the current file. -/
def LoggerInv (s : LoggerState) : Prop :=
  LoggerInv0 s ∧ (1 ≤ s.maxFileSize → s.poffset < s.maxFileSize)

theorem put_log_page_inv0 (env : Env) (s : LoggerState) (h0 : LoggerInv0 s)
    (hp : s.logPage = true → 1 ≤ s.maxFileSize → s.poffset < s.maxFileSize) :
    LoggerInv0 (put_log_page env s) := by
  by_cases hl : s.logPage = true
  · rw [put_log_page_eq env s hl]
    refine ⟨by simp, ?_, ?_, ?_, ?_, ?_, ?_, ?_, ?_⟩
    · intro g hg; exact h0.file_gen g hg
    · intro r hr; exact h0.rec_gen r hr
    · intro r hr g hg hfg; exact h0.frontier r hr g hg hfg
    · exact h0.gen_att
    · exact h0.att_gen
    · intro e he; exact h0.att_name e he
    · intro e he hm
      rcases List.mem_append.mp he with h1 | h1
      · exact h0.flush_lt e h1 hm
      · rw [List.mem_singleton.mp h1]; exact hp hl hm
    · intro e he
      rcases List.mem_append.mp he with h1 | h1
      · exact h0.term_rule e h1
      · rw [List.mem_singleton.mp h1]
  · rw [put_log_page_noop env s (by revert hl; cases s.logPage <;> simp)]
    exact h0

theorem roll_inv (env : Env) (s : LoggerState) (h0 : LoggerInv0 s)
    (hp : s.logPage = true → 1 ≤ s.maxFileSize → s.poffset < s.maxFileSize)
    (hpo : 1 ≤ s.maxFileSize → s.poffset < s.maxFileSize ∨ s.logFile.isSome = true) :
    LoggerInv (iscsi_logger_roll env s) := by
  cases hf : s.logFile with
  | none =>
      rw [roll_noop env s hf]
      refine ⟨h0, fun hm => ?_⟩
      rcases hpo hm with h | h
      · exact h
      · rw [hf] at h; exact absurd h (by simp)
  | some g =>
      rw [roll_eq env s g hf]
      have hput := put_log_page_inv0 env s h0 hp
      refine ⟨⟨?_, ?_, ?_, ?_, ?_, ?_, ?_, ?_, ?_⟩, ?_⟩
      · intro hq
        exact absurd hq (by simp)
      · intro g' hg'; exact absurd hg' (by simp)
      · intro r hr; exact hput.rec_gen r hr
      · intro r hr g' hg'; exact absurd hg' (by simp)
      · exact hput.gen_att
      · exact hput.att_gen
      · intro e he; exact hput.att_name e he
      · intro e he hm; exact hput.flush_lt e he hm
      · intro e he; exact hput.term_rule e he
      · intro hm; exact hm

theorem fetch_log_file_none_inv (env : Env) (s : LoggerState) (h0 : LoggerInv0 s)
    (hf : s.logFile = none)
    (hpo : 1 ≤ s.maxFileSize → s.poffset < s.maxFileSize) :
    LoggerInv (fetch_log_file env s) := by
  rw [fetch_log_file_none env s hf]
  refine ⟨⟨?_, ?_, ?_, ?_, ?_, ?_, ?_, ?_, ?_⟩, ?_⟩
  · intro hq
    have := h0.page_file hq
    rw [hf] at this; exact absurd this (by simp)
  · intro g' hg'
    by_cases henv : env.openOk = true
    · rw [if_pos henv] at hg'
      have : g' = s.generation := by
        have := Option.some.inj hg'; exact this.symm
      rw [this]; exact Nat.lt_succ_self _
    · rw [if_neg henv] at hg'; exact absurd hg' (by simp)
  · intro r hr; exact Nat.lt_succ_of_lt (h0.rec_gen r hr)
  · intro r hr g' hg' hrg
    by_cases henv : env.openOk = true
    · rw [if_pos henv] at hg'
      have hge : g' = s.generation := (Option.some.inj hg').symm
      have := h0.rec_gen r hr
      rw [hrg, hge] at this
      exact absurd this (Nat.lt_irrefl _)
    · rw [if_neg henv] at hg'; exact absurd hg' (by simp)
  · show s.generation + 1 = (s.attempts ++ [Attempt.mk s.generation (s.generation % 1000) env.openOk]).length
    rw [List.length_append, List.length_singleton, h0.gen_att]
  · show (s.attempts ++ [Attempt.mk s.generation (s.generation % 1000) env.openOk]).map Attempt.gen =
      List.range (s.attempts ++ [Attempt.mk s.generation (s.generation % 1000) env.openOk]).length
    rw [List.map_append, List.length_append, List.length_singleton, h0.att_gen,
      List.range_succ, h0.gen_att]
    rfl
  · intro e he
    rcases List.mem_append.mp he with h1 | h1
    · exact h0.att_name e h1
    · rw [List.mem_singleton.mp h1]
  · intro e he hm; exact h0.flush_lt e he hm
  · intro e he; exact h0.term_rule e he
  · intro hm; exact hpo hm

theorem fetch_log_file_inv (env : Env) (s : LoggerState) (h0 : LoggerInv0 s)
    (hp : s.logPage = true → 1 ≤ s.maxFileSize → s.poffset < s.maxFileSize)
    (hpo : 1 ≤ s.maxFileSize → s.poffset < s.maxFileSize ∨ s.logFile.isSome = true) :
    LoggerInv (fetch_log_file env s) := by
  cases hf : s.logFile with
  | none =>
      refine fetch_log_file_none_inv env s h0 hf (fun hm => ?_)
      rcases hpo hm with h | h
      · exact h
      · rw [hf] at h; exact absurd h (by simp)
  | some g =>
      by_cases hlt : s.poffset < s.maxFileSize
      · rw [fetch_log_file_keep env s g hf hlt]
        exact ⟨h0, fun _ => hlt⟩
      · rw [fetch_log_file_roll env s g hf hlt]
        have hroll : LoggerInv (iscsi_logger_roll env s) :=
          roll_inv env s h0 hp (fun _ => Or.inr (by rw [hf]; rfl))
        have hrf : (iscsi_logger_roll env s).logFile = none := by
          rw [roll_eq env s g hf]
        exact fetch_log_file_none_inv env _ hroll.1 hrf hroll.2

theorem inv_set_page (v : LoggerState) (hv : LoggerInv v) (hs : v.logFile.isSome = true) :
    LoggerInv { v with logPage := true, fsdata := true } := by
  refine ⟨⟨?_, ?_, ?_, ?_, ?_, ?_, ?_, ?_, ?_⟩, ?_⟩
  · intro _; exact hs
  · intro g hg; exact hv.1.file_gen g hg
  · intro r hr; exact hv.1.rec_gen r hr
  · intro r hr g hg hrg; exact hv.1.frontier r hr g hg hrg
  · exact hv.1.gen_att
  · exact hv.1.att_gen
  · intro e he; exact hv.1.att_name e he
  · intro e he hm; exact hv.1.flush_lt e he hm
  · intro e he; exact hv.1.term_rule e he
  · exact hv.2

theorem locked_inv (s : LoggerState) (b : Bool) (h : LoggerInv s) :
    LoggerInv { s with locked := b } := by
  refine ⟨⟨?_, ?_, ?_, ?_, ?_, ?_, ?_, ?_, ?_⟩, ?_⟩
  · exact h.1.page_file
  · intro g hg; exact h.1.file_gen g hg
  · intro r hr; exact h.1.rec_gen r hr
  · intro r hr g hg hrg; exact h.1.frontier r hr g hg hrg
  · exact h.1.gen_att
  · exact h.1.att_gen
  · intro e he; exact h.1.att_name e he
  · intro e he hm; exact h.1.flush_lt e he hm
  · intro e he; exact h.1.term_rule e he
  · exact h.2

theorem fetch_log_page_mid_inv (env : Env) (s : LoggerState) (h : LoggerInv s) :
    LoggerInv0 { put_log_page env s with offset := 0, poffset := (put_log_page env s).poffset + 1 } := by
  have hput := put_log_page_inv0 env s h.1 (fun _ => h.2)
  refine ⟨?_, ?_, ?_, ?_, ?_, ?_, ?_, ?_, ?_⟩
  · intro hq; exact absurd hq (by simp)
  · intro g hg; exact hput.file_gen g hg
  · intro r hr; exact hput.rec_gen r hr
  · intro r hr g hg hrg
    rcases hput.frontier r hr g hg hrg with h1 | h1
    · exact Or.inl (Nat.lt_succ_of_lt h1)
    · exact Or.inl (by rw [h1.1]; exact Nat.lt_succ_self _)
  · exact hput.gen_att
  · exact hput.att_gen
  · intro e he; exact hput.att_name e he
  · intro e he hm; exact hput.flush_lt e he hm
  · intro e he; exact hput.term_rule e he

theorem fetch_log_page_inv (env : Env) (sz : Nat) (s : LoggerState)
    (h : LoggerInv s) : LoggerInv (fetch_log_page env sz s) := by
  by_cases hfit : s.logPage = true ∧ s.offset + sz ≤ PAGE_SIZE
  · rw [fetch_log_page_fits env sz s hfit.1 hfit.2]; exact h
  · rw [fetch_log_page_new env sz s hfit]
    by_cases hl : s.logPage = true
    · rw [if_pos hl]
      have hmid := fetch_log_page_mid_inv env s h
      have hv : LoggerInv (fetch_log_file env
          { put_log_page env s with offset := 0, poffset := (put_log_page env s).poffset + 1 }) :=
        fetch_log_file_inv env _ hmid (fun hq => absurd hq (by simp))
          (fun _ => Or.inr (by simpa using h.1.page_file hl))
      by_cases hcond : (fetch_log_file env
          { put_log_page env s with offset := 0, poffset := (put_log_page env s).poffset + 1 }).logFile.isSome = true ∧
          env.beginOk = true
      · rw [if_pos hcond]; exact inv_set_page _ hv hcond.1
      · rw [if_neg hcond]; exact hv
    · rw [if_neg hl]
      have hv : LoggerInv (fetch_log_file env s) :=
        fetch_log_file_inv env s h.1 (fun _ => h.2) (fun hm => Or.inl (h.2 hm))
      by_cases hcond : (fetch_log_file env s).logFile.isSome = true ∧ env.beginOk = true
      · rw [if_pos hcond]; exact inv_set_page _ hv hcond.1
      · rw [if_neg hcond]; exact hv

theorem alloc_inv (env : Env) (size type : Nat) (s : LoggerState) (h : LoggerInv s)
    (r : Option LogRec) (s' : LoggerState)
    (hok : iscsi_logger_alloc env size type s = Except.ok (r, s')) :
    LoggerInv s' := by
  simp only [iscsi_logger_alloc] at hok
  by_cases hbug : PAGE_SIZE < MSG_RND_UP size
  · rw [if_pos hbug] at hok; exact absurd hok (by simp)
  · rw [if_neg hbug] at hok
    have h1 : LoggerInv (fetch_log_page env (MSG_RND_UP size) s) :=
      fetch_log_page_inv env (MSG_RND_UP size) s h
    by_cases hlp : (fetch_log_page env (MSG_RND_UP size) s).logPage = false
    · rw [if_pos hlp] at hok
      simp only [Except.ok.injEq, Prod.mk.injEq] at hok
      rw [← hok.2]; exact h1
    · rw [if_neg hlp] at hok
      simp only [Except.ok.injEq, Prod.mk.injEq] at hok
      rw [← hok.2]
      have hpage : (fetch_log_page env (MSG_RND_UP size) s).logPage = true := by
        revert hlp; cases (fetch_log_page env (MSG_RND_UP size) s).logPage <;> simp
      have hsome := h1.1.page_file hpage
      obtain ⟨g, hg⟩ := Option.isSome_iff_exists.mp hsome
      refine ⟨⟨?_, ?_, ?_, ?_, ?_, ?_, ?_, ?_, ?_⟩, ?_⟩
      · intro _; exact hsome
      · intro g' hg'; exact h1.1.file_gen g' hg'
      · intro r' hr'
        rcases List.mem_append.mp hr' with h2 | h2
        · exact h1.1.rec_gen r' h2
        · rw [List.mem_singleton.mp h2]
          show (fetch_log_page env (MSG_RND_UP size) s).logFile.getD 0 <
            (fetch_log_page env (MSG_RND_UP size) s).generation
          rw [hg]; exact h1.1.file_gen g hg
      · intro r' hr' g' hg' hrg
        rcases List.mem_append.mp hr' with h2 | h2
        · rcases h1.1.frontier r' h2 g' hg' hrg with h3 | h3
          · exact Or.inl h3
          · exact Or.inr ⟨h3.1, Nat.le_trans h3.2 (Nat.le_add_right _ _)⟩
        · rw [List.mem_singleton.mp h2]
          exact Or.inr ⟨rfl, Nat.le_refl _⟩
      · exact h1.1.gen_att
      · exact h1.1.att_gen
      · intro e he; exact h1.1.att_name e he
      · intro e he hm; exact h1.1.flush_lt e he hm
      · intro e he; exact h1.1.term_rule e he
      · exact h1.2

theorem start_inv (env : Env) (s : LoggerState) (h : LoggerInv s) :
    LoggerInv (iscsi_logger_start env s) := by
  unfold iscsi_logger_start
  have h' := locked_inv s true h
  exact fetch_log_file_inv env _ h'.1 (fun _ => h'.2) (fun hm => Or.inl (h'.2 hm))

theorem stop_inv (env : Env) (s : LoggerState) (h : LoggerInv s) :
    LoggerInv (iscsi_logger_stop env s) := by
  unfold iscsi_logger_stop
  have hput : LoggerInv (put_log_page env s) :=
    ⟨put_log_page_inv0 env s h.1 (fun _ => h.2), by simpa using h.2⟩
  exact locked_inv _ false hput

theorem roll_inv_full (env : Env) (s : LoggerState) (h : LoggerInv s) :
    LoggerInv (iscsi_logger_roll env s) :=
  roll_inv env s h.1 (fun _ => h.2) (fun hm => Or.inl (h.2 hm))

theorem commit_inv (s s' : LoggerState) (h : LoggerInv s)
    (hok : iscsi_logger_commit s = Except.ok s') : LoggerInv s' := by
  unfold iscsi_logger_commit at hok
  by_cases hp : s.paddr = false
  · rw [if_pos hp] at hok; exact absurd hok (by simp)
  · rw [if_neg hp] at hok
    rw [← Except.ok.inj hok]; exact h

/-- One step of the logger: any externally invokable operation that does
not hit a BUG_ON. -/
inductive Step : LoggerState → LoggerState → Prop where
  | start (env : Env) (s : LoggerState) : Step s (iscsi_logger_start env s)
  | alloc (env : Env) (size type : Nat) (s : LoggerState) (r : Option LogRec)
      (s' : LoggerState)
      (h : iscsi_logger_alloc env size type s = Except.ok (r, s')) : Step s s'
  | commit (s s' : LoggerState) (h : iscsi_logger_commit s = Except.ok s') :
      Step s s'
  | roll (env : Env) (s : LoggerState) : Step s (iscsi_logger_roll env s)
  | stop (env : Env) (s : LoggerState) : Step s (iscsi_logger_stop env s)

/-- Reachable logger states: any state produced from some initial
configuration by a sequence of operations. -/
inductive Reach : LoggerState → Prop where
  | init (max : Nat) : Reach (initState max)
  | step (s s' : LoggerState) (h1 : Reach s) (h2 : Step s s') : Reach s'

theorem init_inv (max : Nat) : LoggerInv (initState max) := by
  refine ⟨⟨?_, ?_, ?_, ?_, ?_, ?_, ?_, ?_, ?_⟩, fun hm => hm⟩ <;> simp [initState]

theorem step_inv (s s' : LoggerState) (h : LoggerInv s) (hs : Step s s') :
    LoggerInv s' := by
  cases hs with
  | start env s => exact start_inv env s h
  | alloc env size type s r s' hok => exact alloc_inv env size type s h r s' hok
  | commit s s' hok => exact commit_inv s s' h hok
  | roll env s => exact roll_inv_full env s h
  | stop env s => exact stop_inv env s h

theorem reach_inv (s : LoggerState) (h : Reach s) : LoggerInv s := by
  induction h with
  | init max => exact init_inv max
  | step s s' h1 h2 ih => exact step_inv s s' ih h2

theorem runOp_reach (s : LoggerState) (op : Op) (s' : LoggerState)
    (h : Reach s) (hr : runOp s op = Except.ok s') : Reach s' := by
  cases op with
  | start env =>
      simp only [runOp, Except.ok.injEq] at hr
      rw [← hr]; exact Reach.step s _ h (Step.start env s)
  | alloc env size type =>
      simp only [runOp] at hr
      cases halloc : iscsi_logger_alloc env size type s with
      | ok p =>
          rw [halloc] at hr
          simp only [Except.ok.injEq] at hr
          rw [← hr]
          exact Reach.step s p.2 h (Step.alloc env size type s p.1 p.2 (by rw [halloc]))
      | error e => rw [halloc] at hr; exact absurd hr (by simp)
  | commit =>
      simp only [runOp] at hr
      exact Reach.step s s' h (Step.commit s s' hr)
  | roll env =>
      simp only [runOp, Except.ok.injEq] at hr
      rw [← hr]; exact Reach.step s _ h (Step.roll env s)
  | stop env =>
      simp only [runOp, Except.ok.injEq] at hr
      rw [← hr]; exact Reach.step s _ h (Step.stop env s)

theorem run_reach (ops : List Op) (s s' : LoggerState) (h : Reach s)
    (hr : run s ops = Except.ok s') : Reach s' := by
  induction ops generalizing s with
  | nil =>
      simp only [run, Except.ok.injEq] at hr
      rw [← hr]; exact h
  | cons op ops ih =>
      simp only [run] at hr
      cases hop : runOp s op with
      | ok s1 =>
          rw [hop] at hr
          exact ih s1 (runOp_reach s op s1 h hop) hr
      | error e => rw [hop] at hr; exact absurd hr (by simp)

theorem MSG_RND_UP_le (s : Nat) (h : s ≤ PAGE_SIZE - HDR_SIZE) :
    MSG_RND_UP s ≤ PAGE_SIZE := by
  unfold MSG_RND_UP PAGE_SIZE
  unfold PAGE_SIZE HDR_SIZE at h
  have h1 : s + 3 < 2 ^ 64 := by
    have : (2 : Nat) ^ 64 = 18446744073709551616 := by norm_num
    omega
  rw [Nat.mod_eq_of_lt h1]
  have h2 : (s + 3) / 4 * 4 ≤ s + 3 := Nat.div_mul_le_self _ _
  omega

@[simp] theorem ite_page_logFile (c : Prop) [Decidable c] (v : LoggerState) :
    (if c then { v with logPage := true, fsdata := true } else v).logFile =
      v.logFile := by
  by_cases h : c <;> simp [h]

@[simp] theorem ite_page_poffset (c : Prop) [Decidable c] (v : LoggerState) :
    (if c then { v with logPage := true, fsdata := true } else v).poffset =
      v.poffset := by
  by_cases h : c <;> simp [h]

@[simp] theorem ite_page_offset (c : Prop) [Decidable c] (v : LoggerState) :
    (if c then { v with logPage := true, fsdata := true } else v).offset =
      v.offset := by
  by_cases h : c <;> simp [h]

@[simp] theorem ite_page_records (c : Prop) [Decidable c] (v : LoggerState) :
    (if c then { v with logPage := true, fsdata := true } else v).records =
      v.records := by
  by_cases h : c <;> simp [h]

@[simp] theorem ite_page_generation (c : Prop) [Decidable c] (v : LoggerState) :
    (if c then { v with logPage := true, fsdata := true } else v).generation =
      v.generation := by
  by_cases h : c <;> simp [h]

@[simp] theorem fetch_log_file_records (env : Env) (s : LoggerState) :
    (fetch_log_file env s).records = s.records := by
  cases hf : s.logFile with
  | none => rw [fetch_log_file_none env s hf]
  | some g =>
      by_cases hlt : s.poffset < s.maxFileSize
      · rw [fetch_log_file_keep env s g hf hlt]
      · rw [fetch_log_file_roll env s g hf hlt,
          fetch_log_file_none env _ (by rw [roll_eq env s g hf]),
          roll_eq env s g hf]
        simp

@[simp] theorem fetch_log_page_records (env : Env) (sz : Nat) (s : LoggerState) :
    (fetch_log_page env sz s).records = s.records := by
  by_cases hfit : s.logPage = true ∧ s.offset + sz ≤ PAGE_SIZE
  · rw [fetch_log_page_fits env sz s hfit.1 hfit.2]
  · rw [fetch_log_page_new env sz s hfit]
    by_cases hl : s.logPage = true
    · rw [if_pos hl, ite_page_records]; simp
    · rw [if_neg hl, ite_page_records]; simp

theorem fetch_log_file_isSome (env : Env) (s : LoggerState)
    (ho : env.openOk = true) : (fetch_log_file env s).logFile.isSome = true := by
  cases hf : s.logFile with
  | none => rw [fetch_log_file_none env s hf]; simp [ho]
  | some g =>
      by_cases hlt : s.poffset < s.maxFileSize
      · rw [fetch_log_file_keep env s g hf hlt, hf]; rfl
      · rw [fetch_log_file_roll env s g hf hlt,
          fetch_log_file_none env _ (by rw [roll_eq env s g hf])]
        simp [ho]

theorem fetch_log_page_success (env : Env) (sz : Nat) (s : LoggerState)
    (ho : env.openOk = true) (hb : env.beginOk = true) :
    (fetch_log_page env sz s).logPage = true := by
  by_cases hfit : s.logPage = true ∧ s.offset + sz ≤ PAGE_SIZE
  · rw [fetch_log_page_fits env sz s hfit.1 hfit.2]; exact hfit.1
  · rw [fetch_log_page_new env sz s hfit]
    by_cases hl : s.logPage = true
    · rw [if_pos hl, if_pos ⟨fetch_log_file_isSome env _ ho, hb⟩]
    · rw [if_neg hl, if_pos ⟨fetch_log_file_isSome env _ ho, hb⟩]

/-- Normal form of a successful allocation. -/
theorem alloc_ok (env : Env) (size type : Nat) (s : LoggerState)
    (hbug : ¬ PAGE_SIZE < MSG_RND_UP size)
    (hlp : (fetch_log_page env (MSG_RND_UP size) s).logPage = true) :
    iscsi_logger_alloc env size type s =
      Except.ok (some (LogRec.mk
          ((fetch_log_page env (MSG_RND_UP size) s).logFile.getD 0)
          (fetch_log_page env (MSG_RND_UP size) s).poffset
          (fetch_log_page env (MSG_RND_UP size) s).offset
          (MSG_RND_UP size) (type % 256)),
        { fetch_log_page env (MSG_RND_UP size) s with
          paddr := true
          offset := (fetch_log_page env (MSG_RND_UP size) s).offset + MSG_RND_UP size
          records := (fetch_log_page env (MSG_RND_UP size) s).records ++
            [LogRec.mk ((fetch_log_page env (MSG_RND_UP size) s).logFile.getD 0)
              (fetch_log_page env (MSG_RND_UP size) s).poffset
              (fetch_log_page env (MSG_RND_UP size) s).offset
              (MSG_RND_UP size) (type % 256)] }) := by
  simp only [iscsi_logger_alloc]
  rw [if_neg hbug, if_neg (by rw [hlp]; simp)]

theorem alloc_some_exists (env : Env) (size type : Nat) (s : LoggerState)
    (ho : env.openOk = true) (hb : env.beginOk = true)
    (hsz : MSG_RND_UP size ≤ PAGE_SIZE) :
    ∃ r s', iscsi_logger_alloc env size type s = Except.ok (some r, s') :=
  ⟨_, _, alloc_ok env size type s (Nat.not_lt.mpr hsz)
    (fetch_log_page_success env (MSG_RND_UP size) s ho hb)⟩

/-- Number of distinct page indices flushed to file f. -/
def pagesWrittenTo (l : List Flush) (f : Nat) : Nat :=
  ((l.filter (fun e => e.file == f)).map Flush.page).dedup.length

theorem dedup_length_le (l : List Nat) (n : Nat) (h : ∀ x ∈ l, x < n) :
    l.dedup.length ≤ n := by
  rw [← List.card_toFinset]
  have hsub : l.toFinset ⊆ Finset.range n := by
    intro x hx
    rw [List.mem_toFinset] at hx
    exact Finset.mem_range.mpr (h x hx)
  calc l.toFinset.card ≤ (Finset.range n).card := Finset.card_le_card hsub
    _ = n := Finset.card_range n

/-- When the current page cannot take the record and the file is at its
page-capacity limit, fetching a page closes the file and opens a fresh
one (the next generation) at page index 0. -/
theorem rollover_on_full (env : Env) (sz : Nat) (s : LoggerState) (g : Nat)
    (ho : env.openOk = true) (hf : s.logFile = some g) (hl : s.logPage = true)
    (hov : PAGE_SIZE < s.offset + sz) (hlast : s.maxFileSize ≤ s.poffset + 1) :
    (fetch_log_page env sz s).logFile = some s.generation ∧
    (fetch_log_page env sz s).poffset = 0 := by
  have hnofit : ¬ (s.logPage = true ∧ s.offset + sz ≤ PAGE_SIZE) := by
    intro hc; omega
  rw [fetch_log_page_new env sz s hnofit, if_pos hl]
  have hfu : ({ put_log_page env s with offset := 0, poffset := (put_log_page env s).poffset + 1 }).logFile = some g := by
    simp [hf]
  have hpu : ¬ ({ put_log_page env s with offset := 0, poffset := (put_log_page env s).poffset + 1 }).poffset <
      ({ put_log_page env s with offset := 0, poffset := (put_log_page env s).poffset + 1 }).maxFileSize := by
    simp
    omega
  rw [fetch_log_file_roll env _ g hfu hpu,
    fetch_log_file_none env _ (by rw [roll_eq env _ g hfu]),
    roll_eq env _ g hfu]
  constructor
  · rw [ite_page_logFile]
    simp [ho]
  · rw [ite_page_poffset]

/-- Two states that agree on everything except the ghost flush history. -/
def EqButF (a b : LoggerState) : Prop :=
  a.maxFileSize = b.maxFileSize ∧ a.generation = b.generation ∧
  a.logFile = b.logFile ∧ a.poffset = b.poffset ∧ a.offset = b.offset ∧
  a.logPage = b.logPage ∧ a.paddr = b.paddr ∧ a.fsdata = b.fsdata ∧
  a.locked = b.locked ∧ a.records = b.records ∧ a.attempts = b.attempts

theorem eqButF_put (env : Env) (a b : LoggerState) (h : EqButF a b) :
    EqButF (put_log_page env a) (put_log_page env b) := by
  obtain ⟨h1, h2, h3, h4, h5, h6, h7, h8, h9, h10, h11⟩ := h
  by_cases hl : a.logPage = true
  · rw [put_log_page_eq env a hl, put_log_page_eq env b (by rw [← h6]; exact hl)]
    exact ⟨h1, h2, h3, h4, h5, rfl, by rw [h5, h7], rfl, h9, h10, h11⟩
  · have hl' : a.logPage = false := by revert hl; cases a.logPage <;> simp
    rw [put_log_page_noop env a hl', put_log_page_noop env b (by rw [← h6]; exact hl')]
    exact ⟨h1, h2, h3, h4, h5, h6, h7, h8, h9, h10, h11⟩

theorem eqButF_roll (env : Env) (a b : LoggerState) (h : EqButF a b) :
    EqButF (iscsi_logger_roll env a) (iscsi_logger_roll env b) := by
  have hput := eqButF_put env a b h
  obtain ⟨p1, p2, p3, p4, p5, p6, p7, p8, p9, p10, p11⟩ := hput
  cases hf : a.logFile with
  | none =>
      rw [roll_noop env a hf, roll_noop env b (by rw [← h.2.2.1]; exact hf)]
      exact h
  | some g =>
      rw [roll_eq env a g hf, roll_eq env b g (by rw [← h.2.2.1]; exact hf)]
      exact ⟨p1, p2, rfl, rfl, rfl, p6, p7, p8, p9, p10, p11⟩

theorem eqButF_fetch_log_file (env : Env) (a b : LoggerState) (h : EqButF a b) :
    EqButF (fetch_log_file env a) (fetch_log_file env b) := by
  cases hf : a.logFile with
  | none =>
      rw [fetch_log_file_none env a hf, fetch_log_file_none env b (by rw [← h.2.2.1]; exact hf)]
      obtain ⟨h1, h2, h3, h4, h5, h6, h7, h8, h9, h10, h11⟩ := h
      exact ⟨h1, by rw [h2], by rw [h2], h4, h5, h6, h7, h8, h9, h10, by rw [h11, h2]⟩
  | some g =>
      have hfb : b.logFile = some g := by rw [← h.2.2.1]; exact hf
      by_cases hlt : a.poffset < a.maxFileSize
      · rw [fetch_log_file_keep env a g hf hlt,
          fetch_log_file_keep env b g hfb (by rw [← h.2.2.2.1, ← h.1]; exact hlt)]
        exact h
      · have hltb : ¬ b.poffset < b.maxFileSize := by
          rw [← h.2.2.2.1, ← h.1]; exact hlt
        rw [fetch_log_file_roll env a g hf hlt, fetch_log_file_roll env b g hfb hltb]
        have hra := eqButF_roll env a b h
        have hrn : (iscsi_logger_roll env a).logFile = none := by
          rw [roll_eq env a g hf]
        have hrnb : (iscsi_logger_roll env b).logFile = none := by
          rw [roll_eq env b g hfb]
        rw [fetch_log_file_none env _ hrn, fetch_log_file_none env _ hrnb]
        obtain ⟨r1, r2, r3, r4, r5, r6, r7, r8, r9, r10, r11⟩ := hra
        exact ⟨r1, by rw [r2], by rw [r2], r4, r5, r6, r7, r8, r9, r10, by rw [r11, r2]⟩

theorem eqButF_fetch_log_page (env : Env) (sz : Nat) (a b : LoggerState)
    (h : EqButF a b) :
    EqButF (fetch_log_page env sz a) (fetch_log_page env sz b) := by
  by_cases hfit : a.logPage = true ∧ a.offset + sz ≤ PAGE_SIZE
  · rw [fetch_log_page_fits env sz a hfit.1 hfit.2,
      fetch_log_page_fits env sz b (by rw [← h.2.2.2.2.2.1]; exact hfit.1)
        (by rw [← h.2.2.2.2.1]; exact hfit.2)]
    exact h
  · have hfitb : ¬ (b.logPage = true ∧ b.offset + sz ≤ PAGE_SIZE) := by
      rw [← h.2.2.2.2.2.1, ← h.2.2.2.2.1]; exact hfit
    rw [fetch_log_page_new env sz a hfit, fetch_log_page_new env sz b hfitb]
    have hmid : EqButF
        (if a.logPage = true then
          { put_log_page env a with offset := 0, poffset := (put_log_page env a).poffset + 1 }
         else a)
        (if b.logPage = true then
          { put_log_page env b with offset := 0, poffset := (put_log_page env b).poffset + 1 }
         else b) := by
      by_cases hl : a.logPage = true
      · rw [if_pos hl, if_pos (by rw [← h.2.2.2.2.2.1]; exact hl)]
        have hput := eqButF_put env a b h
        obtain ⟨p1, p2, p3, p4, p5, p6, p7, p8, p9, p10, p11⟩ := hput
        exact ⟨p1, p2, p3, by rw [p4], rfl, p6, p7, p8, p9, p10, p11⟩
      · rw [if_neg hl, if_neg (by rw [← h.2.2.2.2.2.1]; exact hl)]
        exact h
    have hff := eqButF_fetch_log_file env _ _ hmid
    obtain ⟨f1, f2, f3, f4, f5, f6, f7, f8, f9, f10, f11⟩ := hff
    by_cases hcond : (fetch_log_file env
        (if a.logPage = true then
          { put_log_page env a with offset := 0, poffset := (put_log_page env a).poffset + 1 }
         else a)).logFile.isSome = true ∧ env.beginOk = true
    · have hcondb : (fetch_log_file env
          (if b.logPage = true then
            { put_log_page env b with offset := 0, poffset := (put_log_page env b).poffset + 1 }
           else b)).logFile.isSome = true ∧ env.beginOk = true := by
        rw [← f3]; exact hcond
      rw [if_pos hcond, if_pos hcondb]
      exact ⟨f1, f2, f3, f4, f5, rfl, f7, rfl, f9, f10, f11⟩
    · have hcondb : ¬ ((fetch_log_file env
          (if b.logPage = true then
            { put_log_page env b with offset := 0, poffset := (put_log_page env b).poffset + 1 }
           else b)).logFile.isSome = true ∧ env.beginOk = true) := by
        rw [← f3]; exact hcond
      rw [if_neg hcond, if_neg hcondb]
      exact ⟨f1, f2, f3, f4, f5, f6, f7, f8, f9, f10, f11⟩

theorem allocRec_eqButF (env : Env) (size type : Nat) (a b : LoggerState)
    (h : EqButF a b) :
    allocRec env size type a = allocRec env size type b := by
  unfold allocRec
  simp only [iscsi_logger_alloc]
  by_cases hbug : PAGE_SIZE < MSG_RND_UP size
  · rw [if_pos hbug, if_pos hbug]
  · rw [if_neg hbug, if_neg hbug]
    have hf := eqButF_fetch_log_page env (MSG_RND_UP size) a b h
    obtain ⟨f1, f2, f3, f4, f5, f6, f7, f8, f9, f10, f11⟩ := hf
    by_cases hlp : (fetch_log_page env (MSG_RND_UP size) a).logPage = false
    · rw [if_pos hlp, if_pos (by rw [← f6]; exact hlp)]
    · rw [if_neg hlp, if_neg (by rw [← f6]; exact hlp)]
      rw [f3, f4, f5]

/-- A state with its ghost flush history erased. -/
def stripF (s : LoggerState) : LoggerState := { s with flushed := [] }

/-- The durable flush events: those whose pagecache_write_end succeeded. -/
def durable (l : List Flush) : List Flush := l.filter Flush.ok

theorem eqButF_put_env (e1 e2 : Env) (s : LoggerState) :
    EqButF (put_log_page e2 s) (put_log_page e1 s) := by
  by_cases hl : s.logPage = true
  · rw [put_log_page_eq e1 s hl, put_log_page_eq e2 s hl]
    exact ⟨rfl, rfl, rfl, rfl, rfl, rfl, rfl, rfl, rfl, rfl, rfl⟩
  · have hl' : s.logPage = false := by revert hl; cases s.logPage <;> simp
    rw [put_log_page_noop e1 s hl', put_log_page_noop e2 s hl']
    exact ⟨rfl, rfl, rfl, rfl, rfl, rfl, rfl, rfl, rfl, rfl, rfl⟩

theorem stripF_eq_of_eqButF (a b : LoggerState) (h : EqButF a b) :
    stripF a = stripF b := by
  obtain ⟨h1, h2, h3, h4, h5, h6, h7, h8, h9, h10, h11⟩ := h
  cases a; cases b
  simp only [stripF]
  simp_all

/-- Trace exhibiting the stale-cursor defect: fill one page exactly, stop
without rolling, start again and allocate once more. -/
def staleCursorOps : List Op :=
  [Op.start okEnv, Op.alloc okEnv 4096 0, Op.commit, Op.stop okEnv,
   Op.start okEnv, Op.alloc okEnv 4 0, Op.stop okEnv]

/-- C1.  The claimed page invariant (cursor always at most PAGE_SIZE, no
record extending past the end of its page) is violated by the code:
iscsi_logger_stop does not reset the page cursor (unlike
iscsi_logger_roll), so a session that stops with a non-zero cursor and
restarts allocates its next record at the stale cursor of the re-fetched
page.  On the trace staleCursorOps the second session's record is placed
at offset 4096 of page 0 with 4 bytes, the cursor reaches 4100 >
PAGE_SIZE, and the page is then sealed in that state. -/
theorem c1_cursor_overflow :
    Option.map LoggerState.offset (stateAfter 1024 staleCursorOps) = some 4100 ∧
    Option.map LoggerState.records (stateAfter 1024 staleCursorOps) =
      some [LogRec.mk 0 0 0 4096 0, LogRec.mk 0 0 4096 4 0] ∧
    Option.map LoggerState.flushed (stateAfter 1024 staleCursorOps) =
      some [Flush.mk 0 0 4096 none true, Flush.mk 0 0 4100 none true] ∧
    PAGE_SIZE < 4100 := by decide

/-- C2 (amended to maxPages being at least 1).  Every page flushed into a
file has index below max_file_size, hence the number of distinct pages
written to any single file never exceeds max_file_size; and a page
allocation on a full page of a file at its capacity limit closes that
file and opens a fresh one (the next generation) at page index 0 before
the new page is fetched. -/
theorem c2_file_capacity (s : LoggerState) (hr : Reach s)
    (hmax : 1 ≤ s.maxFileSize) :
    (∀ e ∈ s.flushed, e.page < s.maxFileSize) ∧
    (∀ f, pagesWrittenTo s.flushed f ≤ s.maxFileSize) ∧
    (∀ env : Env, ∀ sz g : Nat, env.openOk = true → s.logFile = some g →
      s.logPage = true → PAGE_SIZE < s.offset + sz →
      s.maxFileSize ≤ s.poffset + 1 →
      g < s.generation ∧
      (fetch_log_page env sz s).logFile = some s.generation ∧
      (fetch_log_page env sz s).poffset = 0) := by
  have hinv := reach_inv s hr
  refine ⟨fun e he => hinv.1.flush_lt e he hmax, ?_, ?_⟩
  · intro f
    unfold pagesWrittenTo
    apply dedup_length_le
    intro x hx
    rcases List.mem_map.mp hx with ⟨e, he, hxe⟩
    rcases List.mem_filter.mp he with ⟨he1, _⟩
    rw [← hxe]
    exact hinv.1.flush_lt e he1 hmax
  · intro env sz g ho hf hl hov hlast
    exact ⟨hinv.1.file_gen g hf,
      (rollover_on_full env sz s g ho hf hl hov hlast).1,
      (rollover_on_full env sz s g ho hf hl hov hlast).2⟩

/-- Trace for the maxPages = 0 counterexample: one allocation with the
configured file size below one page. -/
def zeroMaxOps : List Op :=
  [Op.start okEnv, Op.alloc okEnv 8 0, Op.commit, Op.stop okEnv]

/-- Distinct pages written to the file of generation 1. -/
def pagesOfFile1 (s : LoggerState) : Nat := pagesWrittenTo s.flushed 1

/-- C2 counterexample: with max_file_size = 0 (a configured byte limit
smaller than one page) a page is still written into the file, so the
claimed bound pageCount ≤ maxPages fails at maxPages = 0. -/
theorem c2_counterexample :
    Option.map pagesOfFile1 (stateAfter 0 zeroMaxOps) = some 1 ∧
    (initState 0).maxFileSize = 0 := by decide

/-- State reached by writing two full pages into a two-page file. -/
def twoPageOps : List Op :=
  [Op.start okEnv, Op.alloc okEnv 4096 0, Op.commit,
   Op.alloc okEnv 4096 0, Op.commit, Op.stop okEnv]

def w2state : LoggerState := (stateAfter 2 twoPageOps).getD (initState 2)

/-- Witness for c2_file_capacity at a concretely reached state. -/
theorem c2_file_capacity_witness :
    (∀ e ∈ w2state.flushed, e.page < w2state.maxFileSize) ∧
    (∀ f, pagesWrittenTo w2state.flushed f ≤ w2state.maxFileSize) ∧
    (∀ env : Env, ∀ sz g : Nat, env.openOk = true → w2state.logFile = some g →
      w2state.logPage = true → PAGE_SIZE < w2state.offset + sz →
      w2state.maxFileSize ≤ w2state.poffset + 1 →
      g < w2state.generation ∧
      (fetch_log_page env sz w2state).logFile = some w2state.generation ∧
      (fetch_log_page env sz w2state).poffset = 0) :=
  c2_file_capacity w2state
    (run_reach twoPageOps (initState 2) w2state (Reach.init 2) (by rfl))
    (by decide)

/-- C3.  Under a working environment, allocation of any size that fits a
page (at most pageCapacity minus the header size) followed immediately by
commit succeeds: the slot starts at the page cursor, provides exactly
MSG_RND_UP size bytes, its header holds the rounded size and the given
type, the cursor advances by exactly the rounded size, and the slot
never overlaps any previously allocated record. -/
theorem c3_alloc_commit (s : LoggerState) (hr : Reach s) (env : Env)
    (size type : Nat) (ho : env.openOk = true) (hb : env.beginOk = true)
    (hsz : size ≤ PAGE_SIZE - HDR_SIZE) (hty : type < 256) :
    ∃ r s', iscsi_logger_alloc env size type s = Except.ok (some r, s') ∧
      r.size = MSG_RND_UP size ∧ r.type = type ∧
      s'.offset = r.off + MSG_RND_UP size ∧
      s'.records = s.records ++ [r] ∧
      (s.logPage = true → s.offset + MSG_RND_UP size ≤ PAGE_SIZE →
        r.off = s.offset ∧ r.page = s.poffset) ∧
      (∀ p ∈ s.records, ¬ overlap p r ∧ ¬ overlap r p) ∧
      iscsi_logger_commit s' = Except.ok s' := by
  have hinv := reach_inv s hr
  have hle := MSG_RND_UP_le size hsz
  have hbug : ¬ PAGE_SIZE < MSG_RND_UP size := Nat.not_lt.mpr hle
  have hlp := fetch_log_page_success env (MSG_RND_UP size) s ho hb
  have hmain := alloc_ok env size type s hbug hlp
  set s1 := fetch_log_page env (MSG_RND_UP size) s with hs1
  have h1 : LoggerInv s1 := fetch_log_page_inv env (MSG_RND_UP size) s hinv
  have hsome : s1.logFile.isSome = true := h1.1.page_file hlp
  obtain ⟨g, hg⟩ := Option.isSome_iff_exists.mp hsome
  refine ⟨_, _, hmain, rfl, Nat.mod_eq_of_lt hty, rfl, ?_, ?_, ?_, ?_⟩
  · show s1.records ++ _ = s.records ++ _
    rw [hs1, fetch_log_page_records]
  · intro hl hfit
    constructor
    · show s1.offset = s.offset
      rw [hs1, fetch_log_page_fits env (MSG_RND_UP size) s hl hfit]
    · show s1.poffset = s.poffset
      rw [hs1, fetch_log_page_fits env (MSG_RND_UP size) s hl hfit]
  · intro p hp
    have hp1 : p ∈ s1.records := by
      rw [hs1, fetch_log_page_records]; exact hp
    have hgetD : s1.logFile.getD 0 = g := by rw [hg]; rfl
    constructor
    · intro hov
      obtain ⟨hfe, hpe, ho1, ho2⟩ := hov
      have hpg : p.file = g := by rw [hfe]; exact hgetD
      rcases h1.1.frontier p hp1 g hg hpg with hc | hc
      · have h2' : p.page = s1.poffset := hpe
        omega
      · have h1' : p.off + p.size ≤ s1.offset := hc.2
        have h2' : s1.offset < p.off + p.size := ho2
        omega
    · intro hov
      obtain ⟨hfe, hpe, ho1, ho2⟩ := hov
      have hpg : p.file = g := by rw [← hfe]; exact hgetD
      rcases h1.1.frontier p hp1 g hg hpg with hc | hc
      · have h2' : s1.poffset = p.page := hpe
        omega
      · have h1' : p.off + p.size ≤ s1.offset := hc.2
        have h2' : s1.offset < p.off + p.size := ho1
        omega
  · show iscsi_logger_commit _ = _
    unfold iscsi_logger_commit
    rw [if_neg (by simp)]

/-- Witness for c3_alloc_commit at the freshly configured initial state. -/
theorem c3_alloc_commit_witness :
    ∃ r s', iscsi_logger_alloc okEnv 8 7 (initState 1024) = Except.ok (some r, s') ∧
      r.size = MSG_RND_UP 8 ∧ r.type = 7 ∧
      s'.offset = r.off + MSG_RND_UP 8 ∧
      s'.records = (initState 1024).records ++ [r] ∧
      ((initState 1024).logPage = true →
        (initState 1024).offset + MSG_RND_UP 8 ≤ PAGE_SIZE →
        r.off = (initState 1024).offset ∧ r.page = (initState 1024).poffset) ∧
      (∀ p ∈ (initState 1024).records, ¬ overlap p r ∧ ¬ overlap r p) ∧
      iscsi_logger_commit s' = Except.ok s' :=
  c3_alloc_commit (initState 1024) (Reach.init 1024) okEnv 8 7 rfl rfl
    (by decide) (by decide)

/-- C4.  Every page sealed with cursor < PAGE_SIZE carries exactly one
terminator sentinel, at offset cursor; a page sealed with cursor =
PAGE_SIZE carries none; and sealing never advances the cursor. -/
theorem c4_seal_terminator (s : LoggerState) (hr : Reach s) :
    (∀ e ∈ s.flushed,
      (e.cursor < PAGE_SIZE → e.term = some e.cursor) ∧
      (e.cursor = PAGE_SIZE → e.term = none)) ∧
    (∀ env : Env, ∀ u : LoggerState, (put_log_page env u).offset = u.offset) := by
  have hinv := reach_inv s hr
  refine ⟨fun e he => ?_, fun env u => put_offset env u⟩
  have ht := hinv.1.term_rule e he
  constructor
  · intro hlt; rw [ht, if_pos hlt]
  · intro heq
    rw [ht, if_neg (by rw [heq]; exact Nat.lt_irrefl _)]

/-- Trace reaching a state with one sealed, partially filled page. -/
def sealedOps : List Op :=
  [Op.start okEnv, Op.alloc okEnv 8 0, Op.commit, Op.stop okEnv]

def w4state : LoggerState := (stateAfter 1024 sealedOps).getD (initState 1024)

/-- Witness for c4_seal_terminator at a concretely reached state whose
history holds one sealed page. -/
theorem c4_seal_terminator_witness :
    (∀ e ∈ w4state.flushed,
      (e.cursor < PAGE_SIZE → e.term = some e.cursor) ∧
      (e.cursor = PAGE_SIZE → e.term = none)) ∧
    (∀ env : Env, ∀ u : LoggerState, (put_log_page env u).offset = u.offset) :=
  c4_seal_terminator w4state
    (run_reach sealedOps (initState 1024) w4state (Reach.init 1024) (by rfl))

/-- Trace: one session that allocates, commits and stops without roll. -/
def c5ops : List Op :=
  [Op.start okEnv, Op.alloc okEnv 8 0, Op.commit, Op.stop okEnv]

/-- C5 counterexample: after stop() the backing file is still open
(log_file = generation 0), contradicting the claim that stop closes the
file session; only the lock is released and the page sealed. -/
theorem c5_counterexample :
    Option.map LoggerState.logFile (stateAfter 1024 c5ops) = some (some 0) ∧
    Option.map LoggerState.locked (stateAfter 1024 c5ops) = some false := by
  decide

/-- C5 (amended).  stop() seals and flushes the open page when one exists
(terminator per the seal rule), and releases the global lock — but it
does not close the backing file: log_file is left unchanged.  The file is
closed only by roll (or module exit). -/
theorem c5_stop_behavior (s : LoggerState) (env : Env) (h : s.logPage = true) :
    (iscsi_logger_stop env s).locked = false ∧
    (iscsi_logger_stop env s).logFile = s.logFile ∧
    (iscsi_logger_stop env s).logPage = false ∧
    (iscsi_logger_stop env s).flushed = s.flushed ++
      [Flush.mk (s.logFile.getD 0) s.poffset s.offset
        (if s.offset < PAGE_SIZE then some s.offset else none) env.flushOk] := by
  unfold iscsi_logger_stop
  rw [put_log_page_eq env s h]
  exact ⟨rfl, rfl, rfl, rfl⟩

/-- State in mid-session: page fetched and one record allocated. -/
def c5state : LoggerState :=
  (stateAfter 1024 [Op.start okEnv, Op.alloc okEnv 8 0, Op.commit]).getD
    (initState 1024)

/-- Witness for c5_stop_behavior at a concretely reached mid-session
state. -/
theorem c5_stop_behavior_witness :
    (iscsi_logger_stop okEnv c5state).locked = false ∧
    (iscsi_logger_stop okEnv c5state).logFile = c5state.logFile ∧
    (iscsi_logger_stop okEnv c5state).logPage = false ∧
    (iscsi_logger_stop okEnv c5state).flushed = c5state.flushed ++
      [Flush.mk (c5state.logFile.getD 0) c5state.poffset c5state.offset
        (if c5state.offset < PAGE_SIZE then some c5state.offset else none)
        okEnv.flushOk] :=
  c5_stop_behavior c5state okEnv (by decide)

/-- Trace calling commit twice in a row after one allocation. -/
def doubleCommitOps : List Op :=
  [Op.start okEnv, Op.alloc okEnv 8 0, Op.commit, Op.commit]

/-- C6 counterexample: calling commit twice in a row is NOT detected —
the run completes without any BUG_ON, because commit never clears paddr;
only a commit before anything was ever mapped trips BUG_ON(!paddr). -/
theorem c6_counterexample :
    isOk (run (initState 1024) doubleCommitOps) = true ∧
    isOk (run (initState 1024) [Op.commit]) = false := by decide

/-- C6 (amended).  commit() is fatal exactly when the mapping pointer has
never been set (paddr still NULL, as in any initial state); after a
successful allocation commit succeeds, and since commit does not clear
paddr, an immediately repeated commit also succeeds instead of being
detected. -/
theorem c6_commit_contract :
    (∀ s : LoggerState, s.paddr = false → iscsi_logger_commit s = Except.error ()) ∧
    (∀ max : Nat, (initState max).paddr = false) ∧
    (∀ env : Env, ∀ size type : Nat, ∀ s : LoggerState, ∀ r : LogRec,
      ∀ s' : LoggerState,
      iscsi_logger_alloc env size type s = Except.ok (some r, s') →
      iscsi_logger_commit s' = Except.ok s') ∧
    (∀ s s' : LoggerState, iscsi_logger_commit s = Except.ok s' →
      iscsi_logger_commit s' = Except.ok s') := by
  refine ⟨?_, fun _ => rfl, ?_, ?_⟩
  · intro s h
    unfold iscsi_logger_commit
    rw [if_pos h]
  · intro env size type s r s' hok
    simp only [iscsi_logger_alloc] at hok
    by_cases hbug : PAGE_SIZE < MSG_RND_UP size
    · rw [if_pos hbug] at hok; exact absurd hok (by simp)
    · rw [if_neg hbug] at hok
      by_cases hlp : (fetch_log_page env (MSG_RND_UP size) s).logPage = false
      · rw [if_pos hlp] at hok
        simp only [Except.ok.injEq, Prod.mk.injEq] at hok
        exact absurd hok.1 (by simp)
      · rw [if_neg hlp] at hok
        simp only [Except.ok.injEq, Prod.mk.injEq] at hok
        rw [← hok.2]
        unfold iscsi_logger_commit
        rw [if_neg (by simp)]
  · intro s s' hok
    unfold iscsi_logger_commit at hok ⊢
    by_cases hp : s.paddr = false
    · rw [if_pos hp] at hok; exact absurd hok (by simp)
    · rw [if_neg hp] at hok
      rw [← Except.ok.inj hok, if_neg hp]

/-- Witness for c6_commit_contract: a commit on the initial state (no
mapping ever made) is fatal. -/
theorem c6_commit_contract_witness :
    iscsi_logger_commit (initState 4) = Except.error () :=
  c6_commit_contract.1 (initState 4) rfl

/-- C7.  Any allocation whose rounded size exceeds PAGE_SIZE fails the
BUG_ON contract check before any state is touched: the call is fatal and
no slot is returned. -/
theorem c7_oversize_fatal (env : Env) (size type : Nat) (s : LoggerState)
    (h : PAGE_SIZE < MSG_RND_UP size) :
    iscsi_logger_alloc env size type s = Except.error () := by
  simp only [iscsi_logger_alloc]
  rw [if_pos h]

/-- Witness for c7_oversize_fatal at size PAGE_SIZE + 1. -/
theorem c7_oversize_fatal_witness :
    iscsi_logger_alloc okEnv 4097 0 (initState 1024) = Except.error () :=
  c7_oversize_fatal okEnv 4097 0 (initState 1024) (by decide)

/-- C8 counterexample: a NULL return is not tied to open failures alone —
here filp_open succeeds (a file is created, generation 0) yet the
allocation still returns NULL because pagecache_write_begin fails. -/
theorem c8_counterexample :
    allocRec noBeginEnv 8 0 (initState 1024) = some none ∧
    (fetch_log_file noBeginEnv (initState 1024)).logFile = some 0 := by decide

/-- C8 (amended).  With no file open, an allocation whose open fails
returns NULL and leaves no file open; the very next allocation
re-attempts the open and succeeds as soon as both the open and
pagecache_write_begin succeed — no other caller state is needed. -/
theorem c8_unavailable_retry (s : LoggerState) (hr : Reach s)
    (hf : s.logFile = none) (env env' : Env) (size type : Nat)
    (hsz : MSG_RND_UP size ≤ PAGE_SIZE)
    (h1 : env.openOk = false) (h2 : env'.openOk = true)
    (h3 : env'.beginOk = true) :
    iscsi_logger_alloc env size type s =
      Except.ok (none, fetch_log_page env (MSG_RND_UP size) s) ∧
    (fetch_log_page env (MSG_RND_UP size) s).logFile = none ∧
    ∃ r s2, iscsi_logger_alloc env' size type
      (fetch_log_page env (MSG_RND_UP size) s) = Except.ok (some r, s2) := by
  have hinv := reach_inv s hr
  have hlpt : ¬ s.logPage = true := by
    intro hq
    have := hinv.1.page_file hq
    rw [hf] at this; exact absurd this (by simp)
  have hs0 : s.logPage = false := by revert hlpt; cases s.logPage <;> simp
  have hnofit : ¬ (s.logPage = true ∧ s.offset + MSG_RND_UP size ≤ PAGE_SIZE) :=
    fun hc => hlpt hc.1
  have hfp1 : fetch_log_file env s = { s with
      generation := s.generation + 1
      attempts := s.attempts ++
        [Attempt.mk s.generation (s.generation % 1000) env.openOk]
      logFile := none } := by
    rw [fetch_log_file_none env s hf, if_neg (by rw [h1]; simp)]
  have hfp : fetch_log_page env (MSG_RND_UP size) s = fetch_log_file env s := by
    rw [fetch_log_page_new env (MSG_RND_UP size) s hnofit, if_neg hlpt]
    by_cases hcond : (fetch_log_file env s).logFile.isSome = true ∧
        env.beginOk = true
    · exfalso
      have hc := hcond.1
      rw [hfp1] at hc
      exact absurd hc (by simp)
    · rw [if_neg hcond]
  have hlpf : (fetch_log_page env (MSG_RND_UP size) s).logPage = false := by
    rw [hfp, hfp1]; exact hs0
  refine ⟨?_, ?_, ?_⟩
  · simp only [iscsi_logger_alloc]
    rw [if_neg (Nat.not_lt.mpr hsz), if_pos hlpf]
  · rw [hfp, hfp1]
  · exact alloc_some_exists env' size type _ h2 h3 hsz

/-- Witness for c8_unavailable_retry at the initial state. -/
theorem c8_unavailable_retry_witness :
    iscsi_logger_alloc noOpenEnv 8 0 (initState 1024) =
      Except.ok (none, fetch_log_page noOpenEnv (MSG_RND_UP 8) (initState 1024)) ∧
    (fetch_log_page noOpenEnv (MSG_RND_UP 8) (initState 1024)).logFile = none ∧
    ∃ r s2, iscsi_logger_alloc okEnv 8 0
      (fetch_log_page noOpenEnv (MSG_RND_UP 8) (initState 1024)) =
      Except.ok (some r, s2) :=
  c8_unavailable_retry (initState 1024) (Reach.init 1024) rfl noOpenEnv okEnv
    8 0 (by decide) rfl rfl rfl

/-- C9.  A failed pagecache_write_end while sealing a page is swallowed:
the page and fsdata are released exactly as on success, the event is
simply not durable (the page's content is dropped from durable storage),
and every subsequent allocation or commit behaves exactly as it would
have after a successful flush. -/
theorem c9_flush_failure (s : LoggerState) (e1 e2 : Env) (h : s.logPage = true)
    (h1 : e1.flushOk = true) (h2 : e2.flushOk = false) :
    (put_log_page e2 s).logPage = false ∧
    (put_log_page e2 s).fsdata = false ∧
    stripF (put_log_page e2 s) = stripF (put_log_page e1 s) ∧
    durable (put_log_page e2 s).flushed = durable s.flushed ∧
    durable (put_log_page e1 s).flushed = durable s.flushed ++
      [Flush.mk (s.logFile.getD 0) s.poffset s.offset
        (if s.offset < PAGE_SIZE then some s.offset else none) true] ∧
    (∀ env : Env, ∀ size type : Nat,
      allocRec env size type (put_log_page e2 s) =
        allocRec env size type (put_log_page e1 s)) ∧
    isOk (iscsi_logger_commit (put_log_page e2 s)) =
      isOk (iscsi_logger_commit (put_log_page e1 s)) := by
  have heq := eqButF_put_env e1 e2 s
  refine ⟨by simp, ?_, stripF_eq_of_eqButF _ _ heq, ?_, ?_, ?_, ?_⟩
  · rw [put_log_page_eq e2 s h]
  · rw [put_log_page_eq e2 s h]
    simp [durable, List.filter_append, h2]
  · rw [put_log_page_eq e1 s h]
    simp [durable, List.filter_append, h1]
  · intro env size type
    exact allocRec_eqButF env size type _ _ heq
  · have hpe : (put_log_page e2 s).paddr = (put_log_page e1 s).paddr :=
      heq.2.2.2.2.2.2.1
    unfold iscsi_logger_commit
    by_cases hp : (put_log_page e2 s).paddr = false
    · rw [if_pos hp, if_pos (by rw [← hpe]; exact hp)]
    · rw [if_neg hp, if_neg (by rw [← hpe]; exact hp)]
      rfl

/-- Witness for c9_flush_failure at a concretely reached mid-session
state with a live page. -/
theorem c9_flush_failure_witness :
    (put_log_page noFlushEnv c5state).logPage = false ∧
    (put_log_page noFlushEnv c5state).fsdata = false ∧
    stripF (put_log_page noFlushEnv c5state) = stripF (put_log_page okEnv c5state) ∧
    durable (put_log_page noFlushEnv c5state).flushed = durable c5state.flushed ∧
    durable (put_log_page okEnv c5state).flushed = durable c5state.flushed ++
      [Flush.mk (c5state.logFile.getD 0) c5state.poffset c5state.offset
        (if c5state.offset < PAGE_SIZE then some c5state.offset else none) true] ∧
    (∀ env : Env, ∀ size type : Nat,
      allocRec env size type (put_log_page noFlushEnv c5state) =
        allocRec env size type (put_log_page okEnv c5state)) ∧
    isOk (iscsi_logger_commit (put_log_page noFlushEnv c5state)) =
      isOk (iscsi_logger_commit (put_log_page okEnv c5state)) :=
  c9_flush_failure c5state okEnv noFlushEnv (by decide) rfl rfl

/-- C10.  Every file-creation attempt consumes the generation counter
exactly once, before the open is tried and whether or not the open
succeeds: after any trace the counter equals the number of attempts, the
attempts carry the consecutive generation values 0, 1, 2, ... in order
(so a failed open leaves a gap in the values used by files actually
created), and the 3-digit name component of each attempt is its
generation value reduced modulo 1000. -/
theorem c10_generation (s : LoggerState) (hr : Reach s) :
    s.generation = s.attempts.length ∧
    s.attempts.map Attempt.gen = List.range s.attempts.length ∧
    ∀ e ∈ s.attempts, e.name = e.gen % 1000 := by
  have hinv := reach_inv s hr
  exact ⟨hinv.1.gen_att, hinv.1.att_gen, fun e he => hinv.1.att_name e he⟩

/-- Trace with one failed and one successful file-creation attempt. -/
def genOps : List Op := [Op.start noOpenEnv, Op.alloc okEnv 8 7]

def w10state : LoggerState := (stateAfter 1024 genOps).getD (initState 1024)

/-- Witness for c10_generation at a state holding a failed attempt
(generation 0) followed by a successful one (generation 1). -/
theorem c10_generation_witness :
    w10state.generation = w10state.attempts.length ∧
    w10state.attempts.map Attempt.gen = List.range w10state.attempts.length ∧
    ∀ e ∈ w10state.attempts, e.name = e.gen % 1000 :=
  c10_generation w10state
    (run_reach genOps (initState 1024) w10state (Reach.init 1024) (by rfl))

end IscsiLogger
